import Mathlib

/-!
Shallow embedding of the PN532 frame protocol engine from
scripts/pn532_controller.py.

Bytes are modelled as natural numbers (the source manipulates Python
bytes objects, whose elements lie in 0..255; where a theorem needs the
byte range it states it as a hypothesis).  The serial transport is
modelled as a list of the bytes it will deliver: a call
serial.read(n), which returns at most n bytes before the timeout,
becomes List.take n, and the stream position advances with List.drop.
A Python function that can return None is modelled with Option; a
function that can raise an uncaught exception is modelled with an
outer Option whose none means the call never returns normally.
-/

namespace PN532

/-- Fixed frame marker PREAMBLE from the source. -/
def PREAMBLE : Nat := 0x00

/-- Fixed frame marker STARTCODE1 from the source. -/
def STARTCODE1 : Nat := 0x00

/-- Fixed frame marker STARTCODE2 from the source. -/
def STARTCODE2 : Nat := 0xFF

/-- Fixed frame marker POSTAMBLE from the source. -/
def POSTAMBLE : Nat := 0x00

/-- The 6-byte positive acknowledgment literal ACK from the source. -/
def ACK : List Nat := [0x00, 0x00, 0xFF, 0x00, 0xFF, 0x00]

/-- The 6-byte negative acknowledgment literal NACK from the source. -/
def NACK : List Nat := [0x00, 0x00, 0xFF, 0xFF, 0x00, 0x00]

/-- Opcode of InListPassiveTarget (CMD_IN_LIST_PASSIVE_TARGET). -/
def CMD_IN_LIST_PASSIVE_TARGET : List Nat := [0x4A]

/-- Opcode of InDataExchange (CMD_IN_DATA_EXCHANGE). -/
def CMD_IN_DATA_EXCHANGE : List Nat := [0x40]

/-- Models the Python expression (~n + 1) & 0xFF, the
complement-and-add-one negation of n reduced to one byte: in Python ~n + 1 is -n, and
(-n) & 0xFF is (-n) mod 256, which for a natural n is
(256 - n % 256) % 256. -/
def negMod256 (n : Nat) : Nat := (256 - n % 256) % 256

/-- frame identifier byte for host-to-chip frames (tfi in _build_frame). -/
def TFI_HOST_TO_CHIP : Nat := 0xD4

/-- Embedding of PN532Controller._build_frame.  data is the byte string
command + params.  length = len(data) + 1 counts the frame identifier;
bytes([length]) in Python raises ValueError when length is not in
0..255, so the encoder only produces a frame when length < 256 and the
none result models that uncaught ValueError. -/
def buildFrame (data : List Nat) : Option (List Nat) :=
  let length := data.length + 1
  let lcs := negMod256 length
  let dcs := negMod256 (TFI_HOST_TO_CHIP + data.sum)
  if length < 256 then
    some ([PREAMBLE, STARTCODE1, STARTCODE2] ++
          [length, lcs, TFI_HOST_TO_CHIP] ++ data ++ [dcs, POSTAMBLE])
  else none

/-- Labels for the distinct failure return sites of _read_frame.  The
source returns the single value None at every one of these sites; the
labels record which site fired, following the taxonomy of the
specification (BadHeader, BadLengthChecksum, BadDataChecksum,
Truncated).  The three truncated sites are the three short-read checks
len(header) < 3, len(len_lcs) < 2 and len(data_dcs) < length + 1. -/
inductive FrameError
  | badHeader
  | badLengthChecksum
  | badDataChecksum
  | truncated
  deriving Repr, DecidableEq

/-- Embedding of PN532Controller._read_frame over an inbound byte
stream s, with each failure return site labelled by its FrameError.
Reads 3 header bytes, 2 length bytes, length + 1 body bytes
(frame identifier, data, data checksum) and one unvalidated postamble
byte; data_dcs[1:-1] is drop 1 followed by dropLast, data_dcs[-1] is
the last element. -/
def readFrameE (s : List Nat) : Except FrameError (List Nat) :=
  let header := s.take 3
  if header.length < 3 then .error .truncated
  else if header ≠ [PREAMBLE, STARTCODE1, STARTCODE2] then .error .badHeader
  else
    let s1 := s.drop 3
    let lenLcs := s1.take 2
    if lenLcs.length < 2 then .error .truncated
    else
      let length := lenLcs.getD 0 0
      let lcs := lenLcs.getD 1 0
      if (length + lcs) % 256 ≠ 0 then .error .badLengthChecksum
      else
        let s2 := s1.drop 2
        let dataDcs := s2.take (length + 1)
        if dataDcs.length < length + 1 then .error .truncated
        else
          let tfi := dataDcs.getD 0 0
          let data := (dataDcs.drop 1).dropLast
          let dcs := dataDcs.getLastD 0
          if (tfi + data.sum + dcs) % 256 ≠ 0 then .error .badDataChecksum
          else .ok data

/-- The value _read_frame actually returns: every error site of the
source is one return None, so the observable result is the Option
projection of the labelled embedding. -/
def readFrame (s : List Nat) : Option (List Nat) :=
  (readFrameE s).toOption

/-- Embedding of PN532Controller.send_command.  Builds the frame for
command + params (a ValueError from _build_frame propagates: none),
writes it, reads exactly 6 bytes from the stream and compares them to
ACK; on mismatch returns None without reading a response frame, else
reads the response frame from the rest of the stream. -/
def sendCommand (command params input : List Nat) : Option (List Nat) :=
  match buildFrame (command ++ params) with
  | none => none
  | some _frame =>
    let ack := input.take 6
    if ack ≠ ACK then none
    else readFrame (input.drop 6)

/-- The card-information record built by read_passive_target. -/
structure CardInfo where
  targetNumber : Nat
  sensRes : List Nat
  selRes : Nat
  uidLength : Nat
  uid : List Nat
  cardType : String
  deriving Repr, DecidableEq

/-- Two-character uppercase hex rendering of a byte, the Python format
specifier {:02X} for values in 0..255. -/
def hexDigit (n : Nat) : Char :=
  if n < 10 then Char.ofNat (48 + n) else Char.ofNat (55 + n)

/-- Renders a byte as two uppercase hex characters. -/
def hexByte (n : Nat) : String :=
  String.mk [hexDigit (n / 16), hexDigit (n % 16)]

/-- Embedding of PN532Controller._identify_card_type: a pure lookup on
the SAK byte, first matching rule wins. -/
def identifyCardType (sak : Nat) : String :=
  if Nat.land sak 0x20 ≠ 0 then "ISO14443-4 (EMV/Smart Card)"
  else if sak = 0x08 then "MIFARE Classic 1K"
  else if sak = 0x18 then "MIFARE Classic 4K"
  else if sak = 0x00 then "MIFARE Ultralight"
  else if sak = 0x10 then "MIFARE Plus"
  else "Unknown (SAK: 0x" ++ hexByte sak ++ ")"

/-- Embedding of PN532Controller.read_passive_target with its inbound
byte stream made explicit.  The outer Option models normal termination:
none means the Python call raised an uncaught IndexError (response[4]
or response[5] with a too-short response).  The inner Option is the
returned value: none is the returned None (no response, short
response, or zero targets), some is the card-information dict.
Python slices (response[2:4], response[6:6+L]) never raise and are
modelled with drop and take; plain indexing response[i] raises when i
is out of range and is modelled with get?. -/
def readPassiveTarget (cardType maxTargets : Nat) (input : List Nat) :
    Option (Option CardInfo) :=
  match sendCommand CMD_IN_LIST_PASSIVE_TARGET [maxTargets, cardType] input with
  | none => some none
  | some r =>
    if r.length < 2 then some none
    else if r.getD 0 0 = 0 then some none
    else
      match r.get? 4, r.get? 5 with
      | some selRes, some uidLength =>
        some (some
          { targetNumber := r.getD 1 0
            sensRes := (r.drop 2).take 2
            selRes := selRes
            uidLength := uidLength
            uid := (r.drop 6).take uidLength
            cardType := identifyCardType selRes })
      | _, _ => none

/-- Embedding of PN532Controller.transceive_apdu with its inbound byte
stream made explicit.  Returns None when there is no response or the
response is shorter than 2 bytes, returns None when the status byte
response[0] is nonzero (the status value is only printed, never
returned), and otherwise returns the payload response[1:]. -/
def transceiveApdu (target : Nat) (apdu input : List Nat) : Option (List Nat) :=
  match sendCommand CMD_IN_DATA_EXCHANGE (target :: apdu) input with
  | none => none
  | some r =>
    if r.length < 2 then none
    else
      let status := r.getD 0 0
      let data := r.drop 1
      if status ≠ 0 then none
      else some data

/-- Convenience builder for test streams: a positive acknowledgment
followed by a well-formed wire frame whose decoded payload is d.
The response decoder never validates the frame identifier beyond the
checksum, so a frame built by the host encoder is a valid inbound
frame. -/
def mkStream (d : List Nat) : List Nat :=
  ACK ++ (buildFrame d).getD []

end PN532

namespace PN532

/-- The byte produced by negMod256 n is the additive complement of n
modulo 256: this is exactly what the two checksum fields of a frame
are for. -/
lemma negMod256_add (n : Nat) : (n + negMod256 n) % 256 = 0 := by
  unfold negMod256; omega

/-- Decoding a wellformed wire frame: when the length byte equals the
frame-identifier-plus-data length, the length checksum verifies and the
data checksum verifies, the decoder accepts the frame and returns the
data portion with the frame identifier stripped, ignoring whatever
bytes follow the data checksum. -/
lemma readFrameE_wellformed (tfi L lcs dcs : Nat) (d rest : List Nat)
    (hL : L = d.length + 1)
    (hlcs : (L + lcs) % 256 = 0)
    (hdcs : (tfi + d.sum + dcs) % 256 = 0) :
    readFrameE ([0, 0, 0xFF, L, lcs, tfi] ++ d ++ [dcs] ++ rest) = .ok d := by
  have htake : (d ++ dcs :: rest).take (d.length + 1) = d ++ [dcs] := by
    rw [List.take_append_eq_append_take]
    have h1 : List.take (d.length + 1) d = d := List.take_of_length_le (by omega)
    have h2 : d.length + 1 - d.length = 1 := by omega
    rw [h1, h2]
    simp
  simp only [readFrameE, List.cons_append, List.nil_append, List.append_eq,
    List.append_assoc, List.take, List.drop, List.length_cons,
    List.getD_cons_zero, List.getD_cons_succ, PREAMBLE, STARTCODE1, STARTCODE2]
  subst hL
  rw [htake]
  simp only [List.length_append, List.length_cons, List.length_nil,
    List.dropLast_concat, ← List.cons_append, List.getLastD_concat]
  norm_num [hlcs, hdcs]

/-- The explicit shape of every frame the encoder can produce. -/
lemma buildFrame_eq (d : List Nat) (h : d.length ≤ 254) :
    buildFrame d =
      some ([0, 0, 0xFF, d.length + 1, negMod256 (d.length + 1), 0xD4] ++
            d ++ [negMod256 (0xD4 + d.sum), 0]) := by
  simp only [buildFrame, PREAMBLE, STARTCODE1, STARTCODE2, POSTAMBLE,
    TFI_HOST_TO_CHIP]
  rw [if_pos (by omega)]
  simp

/-- Decoding any frame the encoder produced succeeds and returns the
original data with the frame identifier stripped. -/
lemma readFrame_buildFrame (d frame : List Nat) (h : buildFrame d = some frame) :
    readFrame frame = some d := by
  have hlen : d.length ≤ 254 := by
    by_contra hgt
    rw [buildFrame] at h
    rw [if_neg (by omega)] at h
    exact Option.noConfusion h
  rw [buildFrame_eq d hlen] at h
  have hframe := Option.some.inj h
  subst hframe
  rw [readFrame]
  have := readFrameE_wellformed 0xD4 (d.length + 1) (negMod256 (d.length + 1))
    (negMod256 (0xD4 + d.sum)) d [0] rfl (negMod256_add _) (negMod256_add _)
  have hsh : [0, 0, 0xFF, d.length + 1, negMod256 (d.length + 1), 0xD4] ++
      d ++ [negMod256 (0xD4 + d.sum), 0] =
      [0, 0, 0xFF, d.length + 1, negMod256 (d.length + 1), 0xD4] ++
      d ++ [negMod256 (0xD4 + d.sum)] ++ [0] := by simp
  rw [hsh, this]
  rfl

end PN532

namespace PN532

/-- C1 counterexample: encoding the firmware-query command (opcode
0x02, empty params) and decoding the resulting frame yields the
opcode alone, not the direction tag followed by the opcode: the
decoder strips the frame identifier before returning the data. -/
theorem c1_counterexample :
    ¬ ((buildFrame ([0x02] ++ [])).bind readFrame =
        some (TFI_HOST_TO_CHIP :: ([0x02] ++ []))) := by decide

/-- C1 (amended): for every opcode byte and parameter sequence of
length at most 253, decoding the frame produced by the encoder
succeeds and recovers opcode followed by params as the returned data:
the direction tag 0xD4 is validated through the data checksum but
stripped from the returned data. -/
theorem c1_roundtrip_amended (opcode : Nat) (params : List Nat)
    (h : params.length ≤ 253) :
    (buildFrame (opcode :: params)).bind readFrame = some (opcode :: params) := by
  have hlen : (opcode :: params).length ≤ 254 := by
    simp [List.length_cons]; omega
  have hb := buildFrame_eq (opcode :: params) hlen
  rw [hb, Option.some_bind]
  exact readFrame_buildFrame (opcode :: params) _ hb

/-- C1 witness: the round trip at the InListPassiveTarget command with
params [0x01, 0x00]. -/
theorem c1_roundtrip_amended_witness :
    (buildFrame (0x4A :: [0x01, 0x00])).bind readFrame =
      some (0x4A :: [0x01, 0x00]) :=
  c1_roundtrip_amended 0x4A [0x01, 0x00] (by decide)

/-- C2: every frame the encoder emits has the stated shape, its length
and length-checksum bytes sum to 0 mod 256, and the direction tag, the
data bytes and the data-checksum byte sum to 0 mod 256. -/
theorem c2_checksum_invariant (data frame : List Nat)
    (h : buildFrame data = some frame) :
    ∃ length lcs dcs,
      frame = [PREAMBLE, STARTCODE1, STARTCODE2, length, lcs, TFI_HOST_TO_CHIP] ++
        data ++ [dcs, POSTAMBLE] ∧
      (length + lcs) % 256 = 0 ∧
      (TFI_HOST_TO_CHIP + data.sum + dcs) % 256 = 0 := by
  have hlen : data.length ≤ 254 := by
    by_contra hgt
    rw [buildFrame] at h
    rw [if_neg (by omega)] at h
    exact Option.noConfusion h
  rw [buildFrame_eq data hlen] at h
  refine ⟨data.length + 1, negMod256 (data.length + 1),
    negMod256 (0xD4 + data.sum), ?_, negMod256_add _, ?_⟩
  · rw [← Option.some.inj h]
    simp [PREAMBLE, STARTCODE1, STARTCODE2, POSTAMBLE, TFI_HOST_TO_CHIP]
  · exact negMod256_add _

/-- C2 witness: the checksum invariant at the concrete frame encoding
the firmware-query command. -/
theorem c2_checksum_invariant_witness :
    ∃ length lcs dcs,
      [0x00, 0x00, 0xFF, 0x02, 0xFE, 0xD4, 0x02, 0x2A, 0x00] =
        [PREAMBLE, STARTCODE1, STARTCODE2, length, lcs, TFI_HOST_TO_CHIP] ++
          [0x02] ++ [dcs, POSTAMBLE] ∧
      (length + lcs) % 256 = 0 ∧
      (TFI_HOST_TO_CHIP + [0x02].sum + dcs) % 256 = 0 :=
  c2_checksum_invariant [0x02] _ (by decide)

/-- C8: whenever the parameter sequence leaves more than 253 payload
bytes after the direction tag and opcode, the length field would
exceed 255 and the encoder signals an error (the ValueError raised by
bytes([length])) instead of emitting a frame. -/
theorem c8_overlong_params (opcode : Nat) (params : List Nat)
    (h : 253 < params.length) :
    buildFrame (opcode :: params) = none := by
  rw [buildFrame]
  rw [if_neg (by simp [List.length_cons]; omega)]

/-- C8 witness: 254 parameter bytes after the InDataExchange opcode are
rejected. -/
theorem c8_overlong_params_witness :
    buildFrame (0x40 :: List.replicate 254 0x00) = none :=
  c8_overlong_params 0x40 (List.replicate 254 0x00)
    (by rw [List.length_replicate]; norm_num)

/-- C3: each of the three reads of the frame decoder fails with the
short-read (truncated) error when the stream delivers fewer bytes than
the decoder expects at that stage before timeout: fewer than 3 header
bytes; a valid header followed by fewer than 2 length bytes; a valid
header and a checksum-consistent length pair followed by fewer than
length + 1 body bytes.  In every case the result is the truncated
error, never a payload. -/
theorem c3_truncated_short_reads :
    (∀ s : List Nat, s.length < 3 → readFrameE s = .error .truncated) ∧
    (∀ r : List Nat, r.length < 2 →
      readFrameE ([PREAMBLE, STARTCODE1, STARTCODE2] ++ r) = .error .truncated) ∧
    (∀ L lcs : Nat, ∀ body : List Nat, (L + lcs) % 256 = 0 →
      body.length < L + 1 →
      readFrameE ([PREAMBLE, STARTCODE1, STARTCODE2, L, lcs] ++ body) =
        .error .truncated) := by
  refine ⟨?_, ?_, ?_⟩
  · intro s hs
    rw [readFrameE]
    rw [if_pos (by simp [List.length_take]; omega)]
  · intro r hr
    simp only [readFrameE, PREAMBLE, STARTCODE1, STARTCODE2,
      List.cons_append, List.nil_append, List.take, List.drop,
      List.length_cons, List.length_take]
    rw [if_neg (by simp), if_neg (by simp)]
    rw [if_pos (by simp [List.length_take]; omega)]
  · intro L lcs body hsum hshort
    simp only [readFrameE, PREAMBLE, STARTCODE1, STARTCODE2,
      List.cons_append, List.nil_append, List.take, List.drop,
      List.length_cons, List.getD_cons_zero, List.getD_cons_succ]
    rw [if_neg (by simp), if_neg (by simp), if_neg (by simp),
      if_neg (by simp [hsum])]
    rw [if_pos (by simp [List.length_take]; omega)]

/-- C3 witness: a two-byte stream, a stream cut off inside the length
pair, and a stream whose body delivers 2 of the declared 4 bytes all
yield the truncated error. -/
theorem c3_truncated_short_reads_witness :
    readFrameE [0x00, 0x00] = .error .truncated ∧
    readFrameE [0x00, 0x00, 0xFF, 0x03] = .error .truncated ∧
    readFrameE [0x00, 0x00, 0xFF, 0x03, 0xFD, 0xD5, 0x01] = .error .truncated :=
  ⟨c3_truncated_short_reads.1 [0x00, 0x00] (by decide),
   c3_truncated_short_reads.2.1 [0x03] (by decide),
   c3_truncated_short_reads.2.2 0x03 0xFD [0xD5, 0x01] (by decide) (by decide)⟩

/-- C4: after building the request frame, send_command reads exactly 6
bytes and compares them to the ACK literal: on any mismatch (short
read or any other 6 bytes, the NACK token included) it returns the
failure value None without reading a response frame, and on a match it
reads exactly one response frame starting at the 7th stream byte.
There is no retry: the result is a single read of the stream. -/
theorem c4_ack_gate (command params input : List Nat)
    (h : (command ++ params).length ≤ 254) :
    (input.take 6 ≠ ACK → sendCommand command params input = none) ∧
    (input.take 6 = ACK →
      sendCommand command params input = readFrame (input.drop 6)) := by
  have hb := buildFrame_eq (command ++ params) h
  constructor
  · intro hack
    rw [sendCommand, hb]
    simp [hack]
  · intro hack
    rw [sendCommand, hb]
    simp [hack]

/-- C4 witness: the NACK token and a 3-byte short read both fail the
call with None, and a positive acknowledgment hands the rest of the
stream to the frame decoder. -/
theorem c4_ack_gate_witness :
    sendCommand [0x02] [] (NACK ++ [0x01, 0x02, 0x03]) = none ∧
    sendCommand [0x02] [] [0x00, 0x00, 0xFF] = none ∧
    sendCommand [0x02] [] (ACK ++ [0x00]) = readFrame [0x00] :=
  ⟨(c4_ack_gate [0x02] [] (NACK ++ [0x01, 0x02, 0x03]) (by decide)).1 (by decide),
   (c4_ack_gate [0x02] [] [0x00, 0x00, 0xFF] (by decide)).1 (by decide),
   (c4_ack_gate [0x02] [] (ACK ++ [0x00]) (by decide)).2 (by decide)⟩

/-- C5 counterexample: a detection response with count byte 0x00
(stream: ACK then a valid frame with payload [0x00, 0x00]) makes
read_passive_target return None, and a channel failure (empty stream,
no acknowledgment) returns the very same None: the no-target outcome
is not distinguished from failure by its own variant or value. -/
theorem c5_counterexample :
    readPassiveTarget 0x00 1 (mkStream [0x00, 0x00]) = some none ∧
    readPassiveTarget 0x00 1 [] = some none ∧
    readPassiveTarget 0x00 1 (mkStream [0x00, 0x00]) =
      readPassiveTarget 0x00 1 [] := by decide

/-- C5 (amended): whenever the detection response decodes and its count
byte (byte 0) is zero, read_passive_target returns None without
raising: a valid negative result, but it is the same None value the
function returns on channel failure, so it is not distinguished from
failure by its own variant or value. -/
theorem c5_no_target_amended (cardType maxTargets : Nat) (input r : List Nat)
    (h : sendCommand CMD_IN_LIST_PASSIVE_TARGET [maxTargets, cardType] input =
      some r)
    (h0 : r.getD 0 0 = 0) :
    readPassiveTarget cardType maxTargets input = some none := by
  rw [readPassiveTarget, h]
  have h0h : r[0]?.getD 0 = 0 := by
    rw [← List.getD_eq_getElem?_getD]; exact h0
  by_cases hl : r.length < 2
  · simp [hl]
  · simp [hl, h0h]

/-- C5 witness: the amended statement at the concrete count-zero
response [0x00, 0x00]. -/
theorem c5_no_target_amended_witness :
    readPassiveTarget 0x00 1 (mkStream [0x00, 0x00]) = some none :=
  c5_no_target_amended 0x00 1 (mkStream [0x00, 0x00]) [0x00, 0x00]
    (by decide) (by decide)

/-- C6 counterexample: an exchange response with status byte 0x01 makes
transceive_apdu return the bare None, and so does a response with
status byte 0x02: the returned value does not carry the status, so no
ExchangeFailed(status) information is yielded. -/
theorem c6_counterexample :
    transceiveApdu 1 [] (mkStream [0x01, 0x90]) = none ∧
    transceiveApdu 1 [] (mkStream [0x02, 0x90]) = none ∧
    transceiveApdu 1 [] (mkStream [0x01, 0x90]) =
      transceiveApdu 1 [] (mkStream [0x02, 0x90]) := by decide

/-- C6 (amended): whenever the exchange response decodes, is at least 2
bytes long and its status byte (byte 0) is nonzero, transceive_apdu
returns None: no data payload is returned and there is no retry, but
the status value itself is not carried in the result. -/
theorem c6_exchange_failed_amended (target : Nat) (apdu input r : List Nat)
    (h : sendCommand CMD_IN_DATA_EXCHANGE (target :: apdu) input = some r)
    (hlen : 2 ≤ r.length) (hst : r.getD 0 0 ≠ 0) :
    transceiveApdu target apdu input = none := by
  rw [transceiveApdu, h]
  have hsth : r[0]?.getD 0 ≠ 0 := by
    rw [← List.getD_eq_getElem?_getD]; exact hst
  simp only [if_neg (by omega : ¬ r.length < 2)]
  simp [hsth]

/-- C6 witness: the amended statement at the concrete status-1
response [0x01, 0x90]. -/
theorem c6_exchange_failed_amended_witness :
    transceiveApdu 1 [] (mkStream [0x01, 0x90]) = none :=
  c6_exchange_failed_amended 1 [] (mkStream [0x01, 0x90]) [0x01, 0x90]
    (by decide) (by decide) (by decide)

/-- C7: card-type classification from the SAK byte is the pure
function identifyCardType applying its rules in priority order, first
match winning: a set 0x20 bit gives the ISO14443-4 string regardless
of the exact value; otherwise the exact values 0x08, 0x18, 0x00 and
0x10 give the Classic 1K, Classic 4K, Ultralight and Plus strings, and
every other value gives the unknown string carrying the raw SAK in
hex.  The listed concrete inputs classify as the claim states. -/
theorem c7_sak_classification :
    (∀ sak : Nat, Nat.land sak 0x20 ≠ 0 →
      identifyCardType sak = "ISO14443-4 (EMV/Smart Card)") ∧
    (∀ sak : Nat, Nat.land sak 0x20 = 0 →
      (sak = 0x08 → identifyCardType sak = "MIFARE Classic 1K") ∧
      (sak = 0x18 → identifyCardType sak = "MIFARE Classic 4K") ∧
      (sak = 0x00 → identifyCardType sak = "MIFARE Ultralight") ∧
      (sak = 0x10 → identifyCardType sak = "MIFARE Plus") ∧
      (sak ≠ 0x08 → sak ≠ 0x18 → sak ≠ 0x00 → sak ≠ 0x10 →
        identifyCardType sak = "Unknown (SAK: 0x" ++ hexByte sak ++ ")")) ∧
    identifyCardType 0x08 = "MIFARE Classic 1K" ∧
    identifyCardType 0x18 = "MIFARE Classic 4K" ∧
    identifyCardType 0x00 = "MIFARE Ultralight" ∧
    identifyCardType 0x28 = "ISO14443-4 (EMV/Smart Card)" ∧
    identifyCardType 0x10 = "MIFARE Plus" ∧
    identifyCardType 0x45 = "Unknown (SAK: 0x45)" := by
  refine ⟨?_, ?_, by decide, by decide, by decide, by decide, by decide, by decide⟩
  · intro sak hbit
    rw [identifyCardType, if_pos hbit]
  · intro sak hbit
    refine ⟨?_, ?_, ?_, ?_, ?_⟩
    · intro h; subst h; decide
    · intro h; subst h; decide
    · intro h; subst h; decide
    · intro h; subst h; decide
    · intro h8 h18 h0 h10
      rw [identifyCardType, if_neg (by simp [hbit]), if_neg h8, if_neg h18,
        if_neg h0, if_neg h10]

/-- C7 witness: the bit rule at 0x28 and the unknown rule at 0x45. -/
theorem c7_sak_classification_witness :
    identifyCardType 0x28 = "ISO14443-4 (EMV/Smart Card)" ∧
    identifyCardType 0x45 = "Unknown (SAK: 0x" ++ hexByte 0x45 ++ ")" :=
  ⟨c7_sak_classification.1 0x28 (by decide),
   (c7_sak_classification.2.1 0x45 (by decide)).2.2.2.2
     (by decide) (by decide) (by decide) (by decide)⟩

/-- C9: evaluating read_passive_target on a stream whose decoded
detection response is [0x01, 0x01] (count 1, only 2 response bytes,
fewer than the 6 bytes of framing that precede the UID) does not
return a malformed-response result: the call never returns normally,
because the source indexes response[4] out of bounds and the uncaught
IndexError propagates (the outer none of the embedding). -/
theorem c9_short_response_crash :
    readPassiveTarget 0x00 1 (mkStream [0x01, 0x01]) = none := by decide

/-- C10: an inbound frame declaring length 0 with length-checksum 0x00
makes the decoder read a single body byte b, use it both as the frame
identifier and as the data checksum, and accept exactly when b + b is
divisible by 256, that is when b is 0x00 or 0x80, returning the empty
payload; any other byte is rejected. -/
theorem c10_zero_length_frame (b : Nat) (rest : List Nat) (hb : b < 256) :
    readFrame ([PREAMBLE, STARTCODE1, STARTCODE2, 0x00, 0x00, b] ++ rest) =
      if b = 0x00 ∨ b = 0x80 then some [] else none := by
  have hiff : ((b + ([] : List Nat).sum + b) % 256 = 0) ↔ (b = 0 ∨ b = 128) := by
    simp only [List.sum_nil, Nat.add_zero]
    omega
  simp only [readFrame, readFrameE, PREAMBLE, STARTCODE1, STARTCODE2,
    List.cons_append, List.nil_append, List.take, List.drop,
    List.length_cons, List.getD_cons_zero, List.getD_cons_succ]
  by_cases hacc : b = 0 ∨ b = 128
  · rw [if_pos hacc]
    rcases hacc with h | h <;> subst h <;> decide
  · rw [if_neg hacc]
    have h1 : List.getLastD [b] 0 = b := rfl
    have h2 : List.sum (List.dropLast ([] : List Nat)) = 0 := rfl
    rw [h1, h2]
    have hc : ¬ ((b + b) % 256 = 0) := by omega
    simp [hc, Except.toOption]

/-- C10 witness: the zero-length frame with body byte 0x80 is accepted
with an empty payload and the one with body byte 0x05 is rejected. -/
theorem c10_zero_length_frame_witness :
    readFrame [0x00, 0x00, 0xFF, 0x00, 0x00, 0x80] = some [] ∧
    readFrame [0x00, 0x00, 0xFF, 0x00, 0x00, 0x05] = none := by
  constructor
  · have h := c10_zero_length_frame 0x80 [] (by decide)
    simpa [PREAMBLE, STARTCODE1, STARTCODE2] using h
  · have h := c10_zero_length_frame 0x05 [] (by decide)
    simpa [PREAMBLE, STARTCODE1, STARTCODE2] using h

end PN532
